import Mathlib

/-!
# Session controller of the Stripe Terminal demo (`src/MainPage.jsx`)

Shallow embedding of the `App` component: `this.state` is the record `State`, the
instance field `this.pendingPaymentIntentSecret` sits next to it in `App`, and every
`async` method is a function from the answers of the collaborators it awaits and the
`App` it starts from to a `Run`: the `App` it leaves, the requests it issued (each with
the `App` as it was when the request went out) and what the method returned or raised.
`this.setState(patch)` is the record update with the fields of `patch`.

The collaborators (the backend client of `./client` and the Terminal SDK) are not part of
the file. Their answers are parameters of the methods, named after the local variable the
source binds them to and typed after the interface of spec §6. No method has a `try`, so
a request that settles by rejecting escapes the method at its `await` and the statements
after it do not run: the four requests of `collectCardPayment`, `registerDevice` and
`cancelCollectPaymentMethod` are answered with `Except Rejection _`. The other methods are
given on the paths where their request is answered.
-/

namespace MainPage

/-! ## Values exchanged with the collaborators -/

/-- Modelled from the spec: reader descriptor (glossary), the identifying data of a card
reader. The controller stores and forwards it and never looks inside. -/
structure Reader where
  id : String
  label : String
deriving DecidableEq, Repr

/-- Modelled from the spec: payment-intent secret, the "opaque token" of spec §3 and §6,
a JavaScript string; the empty string is a value of it. -/
structure Secret where
  token : String
deriving DecidableEq, Repr

/-- Modelled from the spec: error object carried by a Terminal SDK result (`result.error`,
read through `error.message`). -/
structure SdkError where
  message : String
deriving DecidableEq, Repr

/-- Modelled from the spec: failure of an awaited request that settles by rejecting
instead of answering (spec §7 "silent propagation", §4.3 "expected to reject"). -/
structure Rejection where
  message : String
deriving DecidableEq, Repr

/-- Modelled from the spec: payment intent as the controller sees it, read through `.id`. -/
structure PaymentIntent where
  id : String
deriving DecidableEq, Repr

/-- Modelled from the spec: answer of `client.createPaymentIntent`, `secret` plus the
id-bearing intent (spec §6). -/
structure CreateIntentResponse where
  secret : Secret
  intent : String
deriving DecidableEq, Repr

/-- Modelled from the spec: answer of `client.capturePaymentIntent` (spec §6 "capture
result"), handed back to the caller untouched. -/
structure CaptureResult where
  intent : String
deriving DecidableEq, Repr

/-- Modelled from the spec: answer of `terminal.connectReader` on success, read through
`connection.reader`. -/
structure Connection where
  reader : Reader
deriving DecidableEq, Repr

/-- Modelled from the spec: `terminal.discoverReaders` answers `{ discoveredReaders }` or
`{ error }` (spec §6). -/
inductive DiscoverResult where
  | error (error : SdkError)
  | discoveredReaders (discoveredReaders : List Reader)
deriving DecidableEq, Repr

/-- Modelled from the spec: `terminal.connectReader` answers `{ connection }` or
`{ error }` (spec §6). -/
inductive ConnectResult where
  | error (error : SdkError)
  | connection (connection : Connection)
deriving DecidableEq, Repr

/-- Modelled from the spec: answer of `terminal.collectPaymentMethod`; the code reads
`result.error` and, when that is absent, forwards `result.paymentIntent`. -/
structure CollectResult where
  error : Option SdkError
  paymentIntent : Option PaymentIntent
deriving DecidableEq, Repr

/-- Modelled from the spec: answer of `terminal.confirmPaymentIntent`; the code tests
`confirmResult.error` first and `confirmResult.paymentIntent` second. -/
structure ConfirmResult where
  error : Option SdkError
  paymentIntent : Option PaymentIntent
deriving DecidableEq, Repr

/-- Modelled from the spec: tokenised card, read through `source.id`. -/
structure Source where
  id : String
deriving DecidableEq, Repr

/-- Modelled from the spec: `terminal.readSource` answers `{ source }` or `{ error }`. -/
inductive ReadSourceResult where
  | error (error : SdkError)
  | source (source : Source)
deriving DecidableEq, Repr

/-- Modelled from the spec: customer record answered by `client.saveSourceToCustomer`. -/
structure Customer where
  id : String
deriving DecidableEq, Repr

/-- Modelled from the spec: argument of the `onConnectionStatusChange` callback, read
through `ev.status`. -/
structure ConnectionStatusEvent where
  status : String
deriving DecidableEq, Repr

/-- One entry of `cart.lineItems` in `updateLineItems`. -/
structure LineItem where
  description : String
  amount : Nat
  quantity : Nat
deriving DecidableEq, Repr

/-- The `cart` object of `updateLineItems`. -/
structure Cart where
  lineItems : List LineItem
  tax : Nat
  total : Nat
  currency : String
deriving DecidableEq, Repr

/-! ## The component -/

/-- The record `this.state` of `App` (constructor, lines 20-29). -/
structure State where
  status : String
  backendURL : Option String
  discoveredReaders : List Reader
  connectionStatus : String
  reader : Option Reader
  readerLabel : String
  registrationCode : String
  cancelablePayment : Bool
deriving DecidableEq

/-- The component instance: `this.state` and the instance field
`this.pendingPaymentIntentSecret` (`none` is JavaScript `undefined` or `null`). -/
structure App where
  state : State
  pendingPaymentIntentSecret : Option Secret
deriving DecidableEq

/-- JavaScript truthiness of the field `this.pendingPaymentIntentSecret`, as tested by
`!this.pendingPaymentIntentSecret` on line 157: `undefined`, `null` and the empty string
are falsy, every other string is truthy. -/
def truthy : Option Secret → Bool
  | none => false
  | some secret => if secret.token = "" then false else true

/-- The constant `static CHARGE_AMOUNT = 5100`. -/
def App.CHARGE_AMOUNT : Nat := 5100

/-- The component right after `constructor(props)`. -/
def App.initial : App :=
  { state :=
      { status := "requires_initializing"
        backendURL := none
        discoveredReaders := []
        connectionStatus := "not_connected"
        reader := none
        readerLabel := ""
        registrationCode := ""
        cancelablePayment := false }
    pendingPaymentIntentSecret := none }

/-- A request the controller sends to a collaborator: a Terminal SDK method, a backend
client method, or `window.alert`. -/
inductive Call where
  | discoverReaders (method : String)
  | connectReader (selectedReader : Reader)
  | disconnectReader
  | registerDevice (label code : String)
  | setReaderDisplay (type : String) (cart : Cart)
  | createPaymentIntent (amount : Nat) (currency description : String)
  | collectPaymentMethod (secret : Option Secret)
  | cancelCollectPaymentMethod
  | confirmPaymentIntent (paymentIntent : Option PaymentIntent)
  | capturePaymentIntent (id : String)
  | readSource
  | saveSourceToCustomer (id : String)
  | alert (message : String)
deriving DecidableEq

/-- Whether the request is `client.createPaymentIntent`. -/
def Call.isCreatePaymentIntent : Call → Bool
  | .createPaymentIntent _ _ _ => true
  | _ => false

/-- Whether the request is `terminal.collectPaymentMethod`. -/
def Call.isCollectPaymentMethod : Call → Bool
  | .collectPaymentMethod _ => true
  | _ => false

/-- Whether the request is `terminal.confirmPaymentIntent`. -/
def Call.isConfirmPaymentIntent : Call → Bool
  | .confirmPaymentIntent _ => true
  | _ => false

/-- One execution of a controller method: the component it leaves behind, the requests it
issued in order (each paired with the component as it was when the request went out), and
the value it returned (`Except.ok`) or the rejection that escaped it (`Except.error`). -/
structure Run (α : Type) where
  app : App
  calls : List (Call × App)
  result : Except Rejection α

/-- The requests of a run, without the snapshots. -/
def Run.requests {α : Type} (run : Run α) : List Call :=
  run.calls.map Prod.fst

/-! ## 1. Initialization and SDK callbacks -/

/-- The `onUnexpectedReaderDisconnect` callback (lines 46-55): alert, then
`setState({ connectionStatus: "not_connected", reader: null })`. -/
def onUnexpectedReaderDisconnect (app : App) : Run Unit :=
  { app := { app with state := { app.state with connectionStatus := "not_connected", reader := none } }
    calls := [(Call.alert "Unexpected disconnect from the reader!", app)]
    result := .ok () }

/-- The `onConnectionStatusChange` callback (lines 58-63):
`setState({ connectionStatus: ev.status, reader: null })`. -/
def onConnectionStatusChange (ev : ConnectionStatusEvent) (app : App) : Run Unit :=
  { app := { app with state := { app.state with connectionStatus := ev.status, reader := none } }
    calls := []
    result := .ok () }

/-- The method `onSetBackendURL` (lines 222-225): the collaborators are created for `url`
and `setState({ backendURL: url })`. -/
def onSetBackendURL (url : String) (app : App) : Run Unit :=
  { app := { app with state := { app.state with backendURL := some url } }
    calls := []
    result := .ok () }

/-! ## 2. Discover and connect to a reader -/

/-- The method `discoverReaders` (lines 84-99). It returns the SDK error (`Sum.inl`) or
the discovered list (`Sum.inr`). -/
def discoverReaders (useSimulator : Bool) (discoverResult : DiscoverResult) (app : App) :
    Run (Sum SdkError (List Reader)) :=
  let request := (Call.discoverReaders (if useSimulator then "simulated" else "registered"), app)
  match discoverResult with
  | .error error =>
    { app := app, calls := [request], result := .ok (.inl error) }
  | .discoveredReaders discoveredReaders =>
    { app := { app with state := { app.state with discoveredReaders := discoveredReaders } }
      calls := [request]
      result := .ok (.inr discoveredReaders) }

/-- The method `connectToReader` (lines 101-114). It returns the connection, or nothing
(`undefined`) when the SDK answered with an error. -/
def connectToReader (selectedReader : Reader) (connectResult : ConnectResult) (app : App) :
    Run (Option Connection) :=
  let request := (Call.connectReader selectedReader, app)
  match connectResult with
  | .error _ =>
    { app := app, calls := [request], result := .ok none }
  | .connection connection =>
    { app := { app with state := { app.state with
                 status := "workflows", discoveredReaders := [], reader := some connection.reader } }
      calls := [request]
      result := .ok (some connection) }

/-- The method `disconnectReader` (lines 116-122). -/
def disconnectReader (app : App) : Run Unit :=
  { app := { app with state := { app.state with reader := none } }
    calls := [(Call.disconnectReader, app)]
    result := .ok () }

/-- The method `registerAndConnectNewReader` (lines 124-129): a rejected registration
escapes, otherwise `connectToReader` runs on the registered reader. -/
def registerAndConnectNewReader (label code : String) (reader : Except Rejection Reader)
    (connectResult : ConnectResult) (app : App) : Run Unit :=
  let request := (Call.registerDevice label code, app)
  match reader with
  | .error rejection =>
    { app := app, calls := [request], result := .error rejection }
  | .ok reader =>
    let connected := connectToReader reader connectResult app
    { app := connected.app, calls := request :: connected.calls, result := .ok () }

/-! ## 3. Terminal workflows -/

/-- The method `updateLineItems` (lines 132-151). -/
def updateLineItems (app : App) : Run Unit :=
  { app := app
    calls :=
      [(Call.setReaderDisplay "cart"
          { lineItems := [{ description := "Blue Shirt", amount := App.CHARGE_AMOUNT, quantity := 1 }]
            tax := 0
            total := App.CHARGE_AMOUNT
            currency := "usd" }, app)]
    result := .ok () }

/-- The method `collectCardPayment` (lines 154-191). The four answers are those of
`createPaymentIntent`, `collectPaymentMethod`, `confirmPaymentIntent` and
`capturePaymentIntent`, each used only when the request is made; a rejected request ends
the run there. The method returns the capture result, or nothing (`undefined`) on the
paths without a `return`. -/
def collectCardPayment (createIntentResponse : Except Rejection CreateIntentResponse)
    (result : Except Rejection CollectResult) (confirmResult : Except Rejection ConfirmResult)
    (captureResult : Except Rejection CaptureResult) (app : App) : Run (Option CaptureResult) :=
  -- lines 157-164: `if (!this.pendingPaymentIntentSecret) { ... }`
  let create := (Call.createPaymentIntent App.CHARGE_AMOUNT "usd" "Test Charge", app)
  let created : Except Rejection App × List (Call × App) :=
    if truthy app.pendingPaymentIntentSecret then (.ok app, [])
    else
      match createIntentResponse with
      | .error rejection => (.error rejection, [create])
      | .ok createIntentResponse =>
        (.ok { app with pendingPaymentIntentSecret := some createIntentResponse.secret }, [create])
  match created.1 with
  | .error rejection => { app := app, calls := created.2, result := .error rejection }
  | .ok app1 =>
    -- lines 166-168: the collect request goes out
    let collect := (Call.collectPaymentMethod app1.pendingPaymentIntentSecret, app1)
    -- line 169
    let app2 := { app1 with state := { app1.state with cancelablePayment := true } }
    -- line 170: `result` arrives
    match result with
    | .error rejection =>
      { app := app2, calls := created.2 ++ [collect], result := .error rejection }
    | .ok result =>
      match result.error with
      | some _ =>
        { app := app2, calls := created.2 ++ [collect], result := .ok none }
      | none =>
        -- lines 174-176: the confirm request goes out, `confirmResult` arrives
        let confirm := (Call.confirmPaymentIntent result.paymentIntent, app2)
        match confirmResult with
        | .error rejection =>
          { app := app2, calls := created.2 ++ [collect, confirm], result := .error rejection }
        | .ok confirmResult =>
          -- line 178
          let app3 := { app2 with state := { app2.state with cancelablePayment := false } }
          match confirmResult.error with
          | some error =>
            { app := app3
              calls := created.2 ++
                [collect, confirm, (Call.alert ("Confirm failed: " ++ error.message), app3)]
              result := .ok none }
          | none =>
            match confirmResult.paymentIntent with
            | none =>
              { app := app3, calls := created.2 ++ [collect, confirm], result := .ok none }
            | some paymentIntent =>
              -- lines 183-185: the capture request goes out
              let capture := (Call.capturePaymentIntent paymentIntent.id, app3)
              match captureResult with
              | .error rejection =>
                { app := app3
                  calls := created.2 ++ [collect, confirm, capture]
                  result := .error rejection }
              | .ok captureResult =>
                -- line 186
                { app := { app3 with pendingPaymentIntentSecret := none }
                  calls := created.2 ++ [collect, confirm, capture]
                  result := .ok (some captureResult) }

/-- The method `cancelPendingPayment` (lines 195-198): when the SDK rejects the cancel
request the rejection escapes before `setState`. -/
def cancelPendingPayment (cancelResult : Except Rejection Unit) (app : App) : Run Unit :=
  let request := (Call.cancelCollectPaymentMethod, app)
  match cancelResult with
  | .error rejection =>
    { app := app, calls := [request], result := .error rejection }
  | .ok _ =>
    { app := { app with state := { app.state with cancelablePayment := false } }
      calls := [request]
      result := .ok () }

/-- The method `saveCardForFutureUse` (lines 201-214). -/
def saveCardForFutureUse (readSourceResult : ReadSourceResult) (customer : Customer) (app : App) :
    Run (Option Customer) :=
  let request := (Call.readSource, app)
  match readSourceResult with
  | .error error =>
    { app := app
      calls := [request, (Call.alert ("Read source failed: " ++ error.message), app)]
      result := .ok none }
  | .source source =>
    { app := app
      calls := [request, (Call.saveSourceToCustomer source.id, app)]
      result := .ok (some customer) }

/-! ## Sequences of operations -/

/-- One controller operation or SDK notification, together with the answers the
collaborators give while it runs. -/
inductive Op where
  | onSetBackendURL (url : String)
  | discoverReaders (useSimulator : Bool) (discoverResult : DiscoverResult)
  | connectToReader (selectedReader : Reader) (connectResult : ConnectResult)
  | disconnectReader
  | registerAndConnectNewReader (label code : String) (reader : Except Rejection Reader)
      (connectResult : ConnectResult)
  | updateLineItems
  | collectCardPayment (createIntentResponse : Except Rejection CreateIntentResponse)
      (result : Except Rejection CollectResult) (confirmResult : Except Rejection ConfirmResult)
      (captureResult : Except Rejection CaptureResult)
  | cancelPendingPayment (cancelResult : Except Rejection Unit)
  | saveCardForFutureUse (readSourceResult : ReadSourceResult) (customer : Customer)
  | onUnexpectedReaderDisconnect
  | onConnectionStatusChange (ev : ConnectionStatusEvent)

/-- The component after the operation has run to its end. -/
def Op.apply : Op → App → App
  | .onSetBackendURL url, app => (MainPage.onSetBackendURL url app).app
  | .discoverReaders useSimulator discoverResult, app =>
    (MainPage.discoverReaders useSimulator discoverResult app).app
  | .connectToReader selectedReader connectResult, app =>
    (MainPage.connectToReader selectedReader connectResult app).app
  | .disconnectReader, app => (MainPage.disconnectReader app).app
  | .registerAndConnectNewReader label code reader connectResult, app =>
    (MainPage.registerAndConnectNewReader label code reader connectResult app).app
  | .updateLineItems, app => (MainPage.updateLineItems app).app
  | .collectCardPayment createIntentResponse result confirmResult captureResult, app =>
    (MainPage.collectCardPayment createIntentResponse result confirmResult captureResult app).app
  | .cancelPendingPayment cancelResult, app => (MainPage.cancelPendingPayment cancelResult app).app
  | .saveCardForFutureUse readSourceResult customer, app =>
    (MainPage.saveCardForFutureUse readSourceResult customer app).app
  | .onUnexpectedReaderDisconnect, app => (MainPage.onUnexpectedReaderDisconnect app).app
  | .onConnectionStatusChange ev, app => (MainPage.onConnectionStatusChange ev app).app

/-- Whether the operation is a connect that the SDK answers with a connection: the only
place (line 108) where `status` is written after the constructor. -/
def Op.connects : Op → Bool
  | .connectToReader _ (.connection _) => true
  | .registerAndConnectNewReader _ _ (.ok _) (.connection _) => true
  | _ => false

/-- The component after the operations have run one after the other. -/
def runOps (ops : List Op) (app : App) : App :=
  ops.foldl (fun app op => op.apply app) app

/-! ## Sample values -/

/-- A simulated reader. -/
def sampleReader : Reader := { id := "tmr_simulated", label := "Simulated reader" }

/-- A second reader. -/
def otherReader : Reader := { id := "tmr_registered", label := "Front desk" }

/-- The secret of a first payment intent. -/
def firstSecret : Secret := { token := "pi_1_secret_a" }

/-- The secret of a second payment intent. -/
def secondSecret : Secret := { token := "pi_2_secret_b" }

/-- The empty string as a secret. -/
def emptySecret : Secret := { token := "" }

/-- A session connected to `sampleReader` with a stale discovery list. -/
def connectedApp : App :=
  { state :=
      { status := "workflows"
        backendURL := some "http://localhost:4567"
        discoveredReaders := [otherReader]
        connectionStatus := "connected"
        reader := some sampleReader
        readerLabel := ""
        registrationCode := ""
        cancelablePayment := false }
    pendingPaymentIntentSecret := none }

/-- The answer of `createPaymentIntent` for the first intent. -/
def firstIntent : CreateIntentResponse := { secret := firstSecret, intent := "pi_1" }

/-- The answer of `createPaymentIntent` for the second intent. -/
def secondIntent : CreateIntentResponse := { secret := secondSecret, intent := "pi_2" }

/-- An answer of `createPaymentIntent` whose secret is the empty string. -/
def emptyIntent : CreateIntentResponse := { secret := emptySecret, intent := "pi_0" }

/-- A rejected backend request. -/
def requestFailed : Rejection := { message := "Request Failed" }

/-- A collection that settles with an error. -/
def collectFailed : CollectResult :=
  { error := some { message := "The card read timed out" }, paymentIntent := none }

/-- A collection that settles with a payment intent. -/
def collectOk : CollectResult := { error := none, paymentIntent := some { id := "pi_1" } }

/-- A confirmation that settles with an error. -/
def confirmDeclined : ConfirmResult :=
  { error := some { message := "Your card was declined" }, paymentIntent := none }

/-- A confirmation that settles with a payment intent. -/
def confirmOk : ConfirmResult := { error := none, paymentIntent := some { id := "pi_1" } }

/-- A capture answer. -/
def captured : CaptureResult := { intent := "pi_1" }

/-! ## Frame lemmas -/

/-- Writing back the value `cancelablePayment` already has changes nothing. -/
theorem setState_cancelablePayment_same (app : App) (flag : Bool)
    (h : app.state.cancelablePayment = flag) :
    { app with state := { app.state with cancelablePayment := flag } } = app := by
  cases app with
  | mk state secret =>
    cases state
    simp_all

/-! ## 2. Discover and connect to a reader: theorems -/

/-- C7: `discoverReaders(useSimulator)` asks the SDK with method `simulated` when
`useSimulator` is true and `registered` otherwise; when the SDK result carries an error,
that error is returned and the component is unchanged; otherwise `discoveredReaders`
becomes exactly the discovered list, that list is returned and no other field changes. -/
theorem discoverReaders_spec (app : App) (discoverResult : DiscoverResult) (error : SdkError)
    (discovered : List Reader) :
    (discoverReaders true discoverResult app).requests = [Call.discoverReaders "simulated"] ∧
    (discoverReaders false discoverResult app).requests = [Call.discoverReaders "registered"] ∧
    (∀ useSimulator : Bool,
      (discoverReaders useSimulator (.error error) app).result = .ok (.inl error) ∧
      (discoverReaders useSimulator (.error error) app).app = app ∧
      (discoverReaders useSimulator (.discoveredReaders discovered) app).result
        = .ok (.inr discovered) ∧
      (discoverReaders useSimulator (.discoveredReaders discovered) app).app.state.discoveredReaders
        = discovered ∧
      (discoverReaders useSimulator (.discoveredReaders discovered) app).app
        = { app with state := { app.state with discoveredReaders := discovered } }) := by
  refine ⟨?_, ?_, ?_⟩
  · cases discoverResult <;> rfl
  · cases discoverResult <;> rfl
  · intro useSimulator
    exact ⟨rfl, rfl, rfl, rfl, rfl⟩

/-- C5: when the SDK's `connectReader` succeeds, `connectToReader` leaves
`status = "workflows"`, `discoveredReaders = []` and `reader` = the reader of the returned
connection, whatever they held before, changes no other field, and returns the
connection. -/
theorem connectToReader_success (app : App) (selectedReader : Reader) (connection : Connection) :
    (connectToReader selectedReader (.connection connection) app).app.state.status = "workflows" ∧
    (connectToReader selectedReader (.connection connection) app).app.state.discoveredReaders = [] ∧
    (connectToReader selectedReader (.connection connection) app).app.state.reader
      = some connection.reader ∧
    (connectToReader selectedReader (.connection connection) app).app
      = { app with state := { app.state with
            status := "workflows", discoveredReaders := [], reader := some connection.reader } } ∧
    (connectToReader selectedReader (.connection connection) app).result = .ok (some connection) ∧
    (connectToReader selectedReader (.connection connection) app).requests
      = [Call.connectReader selectedReader] :=
  ⟨rfl, rfl, rfl, rfl, rfl, rfl⟩

/-- C8: when the SDK's `connectReader` answers with an error, `connectToReader` leaves the
whole component unchanged and returns no connection. -/
theorem connectToReader_error (app : App) (selectedReader : Reader) (error : SdkError) :
    (connectToReader selectedReader (.error error) app).app = app ∧
    (connectToReader selectedReader (.error error) app).result = .ok none ∧
    (connectToReader selectedReader (.error error) app).requests
      = [Call.connectReader selectedReader] :=
  ⟨rfl, rfl, rfl⟩

/-- C9: an unexpected-disconnect notification leaves `connectionStatus = "not_connected"`
and `reader = none` and every other field (status, backendURL, discoveredReaders,
readerLabel, registrationCode, cancelablePayment, pending secret) as it was. -/
theorem onUnexpectedReaderDisconnect_spec (app : App) :
    (onUnexpectedReaderDisconnect app).app.state.connectionStatus = "not_connected" ∧
    (onUnexpectedReaderDisconnect app).app.state.reader = none ∧
    (onUnexpectedReaderDisconnect app).app.state.status = app.state.status ∧
    (onUnexpectedReaderDisconnect app).app.state.backendURL = app.state.backendURL ∧
    (onUnexpectedReaderDisconnect app).app.state.discoveredReaders = app.state.discoveredReaders ∧
    (onUnexpectedReaderDisconnect app).app.state.readerLabel = app.state.readerLabel ∧
    (onUnexpectedReaderDisconnect app).app.state.registrationCode = app.state.registrationCode ∧
    (onUnexpectedReaderDisconnect app).app.state.cancelablePayment = app.state.cancelablePayment ∧
    (onUnexpectedReaderDisconnect app).app.pendingPaymentIntentSecret
      = app.pendingPaymentIntentSecret ∧
    (onUnexpectedReaderDisconnect app).result = .ok () :=
  ⟨rfl, rfl, rfl, rfl, rfl, rfl, rfl, rfl, rfl, rfl⟩

/-- C10: with the SDK's `cancelCollectPaymentMethod` returning, `cancelPendingPayment`
leaves a component whose `cancelablePayment` was already false exactly as it was; and from
any component it returns with `cancelablePayment = false` and every other field as it
was. -/
theorem cancelPendingPayment_spec (app : App) :
    (app.state.cancelablePayment = false → (cancelPendingPayment (.ok ()) app).app = app) ∧
    (cancelPendingPayment (.ok ()) app).result = .ok () ∧
    (cancelPendingPayment (.ok ()) app).app.state.cancelablePayment = false ∧
    (cancelPendingPayment (.ok ()) app).app
      = { app with state := { app.state with cancelablePayment := false } } ∧
    (cancelPendingPayment (.ok ()) app).requests = [Call.cancelCollectPaymentMethod] := by
  refine ⟨?_, rfl, rfl, rfl, rfl⟩
  intro h
  exact setState_cancelablePayment_same app false h

/-- Witness for C10 on the connected sample session, whose `cancelablePayment` is false. -/
theorem cancelPendingPayment_spec_witness :
    connectedApp.state.cancelablePayment = false ∧
    (cancelPendingPayment (.ok ()) connectedApp).app = connectedApp :=
  ⟨rfl, (cancelPendingPayment_spec connectedApp).1 rfl⟩

/-! ## 3. Terminal workflows: theorems -/

/-- C1 as stated fails: `createPaymentIntent` answers the first run with the empty string
as secret and the collection fails. The empty string is stored, and it is falsy on line
157 of the second run, which requests `createPaymentIntent` again and collects with the
second secret: two intents across the two runs. -/
theorem collectCardPayment_retry_empty_secret_creates_again :
    connectedApp.pendingPaymentIntentSecret = none ∧
    (collectCardPayment (.ok emptyIntent) (.ok collectFailed) (.ok confirmOk) (.ok captured)
      connectedApp).app.pendingPaymentIntentSecret = some emptySecret ∧
    (collectCardPayment (.ok secondIntent) (.ok collectOk) (.ok confirmOk) (.ok captured)
        (collectCardPayment (.ok emptyIntent) (.ok collectFailed) (.ok confirmOk) (.ok captured)
          connectedApp).app).requests.filter Call.isCollectPaymentMethod
      = [Call.collectPaymentMethod (some secondSecret)] ∧
    (((collectCardPayment (.ok emptyIntent) (.ok collectFailed) (.ok confirmOk) (.ok captured)
        connectedApp).requests
      ++ (collectCardPayment (.ok secondIntent) (.ok collectOk) (.ok confirmOk) (.ok captured)
        (collectCardPayment (.ok emptyIntent) (.ok collectFailed) (.ok confirmOk) (.ok captured)
          connectedApp).app).requests).filter Call.isCreatePaymentIntent).length = 2 := by
  refine ⟨rfl, ?_, ?_, ?_⟩ <;>
    simp [collectCardPayment, Run.requests, truthy, connectedApp, emptyIntent, emptySecret,
      secondIntent, secondSecret, collectFailed, collectOk, confirmOk, captured,
      Call.isCollectPaymentMethod, Call.isCreatePaymentIntent]

/-- C1 amended: two consecutive `collectCardPayment` runs from a component without a
pending secret (absent, or the empty string), the first of which is answered by
`createPaymentIntent` with a non-empty secret and fails (collect answers with an error,
or confirm answers with an error): after the first run the pending secret is the one
`createPaymentIntent` returned, both runs pass that secret to `collectPaymentMethod`, and
`createPaymentIntent` is requested exactly once across the two runs, whatever the second
run is answered. -/
theorem collectCardPayment_retry_reuses_secret (app : App)
    (createIntentResponse : CreateIntentResponse)
    (createIntentResponse2 : Except Rejection CreateIntentResponse)
    (result : CollectResult) (result2 : Except Rejection CollectResult)
    (confirmResult confirmResult2 : Except Rejection ConfirmResult)
    (captureResult captureResult2 : Except Rejection CaptureResult)
    (hpending : truthy app.pendingPaymentIntentSecret = false)
    (hsecret : createIntentResponse.secret.token ≠ "")
    (hfailed : result.error ≠ none ∨
      (result.error = none ∧
        ∃ confirmed, confirmResult = .ok confirmed ∧ confirmed.error ≠ none)) :
    let first :=
      collectCardPayment (.ok createIntentResponse) (.ok result) confirmResult captureResult app
    let second :=
      collectCardPayment createIntentResponse2 result2 confirmResult2 captureResult2 first.app
    first.result = .ok none ∧
    first.app.pendingPaymentIntentSecret = some createIntentResponse.secret ∧
    first.requests.filter Call.isCollectPaymentMethod
      = [Call.collectPaymentMethod (some createIntentResponse.secret)] ∧
    second.requests.filter Call.isCollectPaymentMethod
      = [Call.collectPaymentMethod (some createIntentResponse.secret)] ∧
    (first.requests ++ second.requests).filter Call.isCreatePaymentIntent
      = [Call.createPaymentIntent 5100 "usd" "Test Charge"] ∧
    ((first.requests ++ second.requests).filter Call.isCreatePaymentIntent).length = 1 := by
  intro first second
  obtain ⟨error, paymentIntent⟩ := result
  obtain ⟨state, secret⟩ := app
  have hcreated : truthy (some createIntentResponse.secret) = true := by
    simp [truthy, hsecret]
  simp only at hpending hfailed
  rcases hfailed with h | ⟨h1, confirmed, h2, h3⟩
  · obtain ⟨e, rfl⟩ := Option.ne_none_iff_exists'.mp h
    rcases result2 with rejection | ⟨_ | error2, paymentIntent2⟩ <;>
      rcases confirmResult2 with rejection | ⟨_ | confirmError2, _ | confirmIntent2⟩ <;>
      rcases captureResult2 with rejection | captureResponse2 <;>
      simp [first, second, collectCardPayment, Run.requests, Call.isCollectPaymentMethod,
        Call.isCreatePaymentIntent, App.CHARGE_AMOUNT, hpending, hcreated]
  · subst h1 h2
    obtain ⟨confirmError, confirmIntent⟩ := confirmed
    obtain ⟨e, rfl⟩ := Option.ne_none_iff_exists'.mp h3
    rcases result2 with rejection | ⟨_ | error2, paymentIntent2⟩ <;>
      rcases confirmResult2 with rejection | ⟨_ | confirmError2, _ | confirmIntent2⟩ <;>
      rcases captureResult2 with rejection | captureResponse2 <;>
      simp [first, second, collectCardPayment, Run.requests, Call.isCollectPaymentMethod,
        Call.isCreatePaymentIntent, App.CHARGE_AMOUNT, hpending, hcreated]

/-- Witness for the amended C1: on the connected sample session a timed-out collection
followed by a retry sends the first secret to `collectPaymentMethod` again and creates
one intent. -/
theorem collectCardPayment_retry_reuses_secret_witness :
    truthy connectedApp.pendingPaymentIntentSecret = false ∧
    firstIntent.secret.token ≠ "" ∧
    collectFailed.error ≠ none ∧
    (collectCardPayment (.ok secondIntent) (.ok collectOk) (.ok confirmOk) (.ok captured)
        (collectCardPayment (.ok firstIntent) (.ok collectFailed) (.ok confirmOk) (.ok captured)
          connectedApp).app).requests.filter Call.isCollectPaymentMethod
      = [Call.collectPaymentMethod (some firstSecret)] ∧
    (((collectCardPayment (.ok firstIntent) (.ok collectFailed) (.ok confirmOk) (.ok captured)
        connectedApp).requests
      ++ (collectCardPayment (.ok secondIntent) (.ok collectOk) (.ok confirmOk) (.ok captured)
        (collectCardPayment (.ok firstIntent) (.ok collectFailed) (.ok confirmOk) (.ok captured)
          connectedApp).app).requests).filter Call.isCreatePaymentIntent).length = 1 :=
  have h := collectCardPayment_retry_reuses_secret connectedApp firstIntent (.ok secondIntent)
    collectFailed (.ok collectOk) (.ok confirmOk) (.ok confirmOk) (.ok captured) (.ok captured)
    rfl (by decide) (Or.inl (by decide))
  ⟨rfl, by decide, by decide, h.2.2.2.1, h.2.2.2.2.2⟩

/-- A run of `collectCardPayment` that starts without a truthy pending secret requests
`createPaymentIntent` first, once, and, when that request is answered, passes the secret
of the answer to `collectPaymentMethod`. -/
theorem collectCardPayment_from_falsy (app : App)
    (createIntentResponse : Except Rejection CreateIntentResponse)
    (result : Except Rejection CollectResult) (confirmResult : Except Rejection ConfirmResult)
    (captureResult : Except Rejection CaptureResult)
    (hpending : truthy app.pendingPaymentIntentSecret = false) :
    (collectCardPayment createIntentResponse result confirmResult captureResult app).requests.head?
      = some (Call.createPaymentIntent 5100 "usd" "Test Charge") ∧
    ((collectCardPayment createIntentResponse result confirmResult captureResult
      app).requests.filter Call.isCreatePaymentIntent).length = 1 ∧
    ∀ response, createIntentResponse = .ok response →
      (collectCardPayment createIntentResponse result confirmResult captureResult
        app).requests.take 2
        = [Call.createPaymentIntent 5100 "usd" "Test Charge",
           Call.collectPaymentMethod (some response.secret)] := by
  obtain ⟨state, secret⟩ := app
  simp only at hpending
  rcases createIntentResponse with rejection | response <;>
    rcases result with rejection | ⟨_ | error, paymentIntent⟩ <;>
    rcases confirmResult with rejection | ⟨_ | confirmError, _ | confirmIntent⟩ <;>
    rcases captureResult with rejection | captureResponse <;>
    simp [collectCardPayment, Run.requests, Call.isCreatePaymentIntent, App.CHARGE_AMOUNT,
      hpending]

/-- C2 as stated fails: on the connected sample session, which has no pending secret, the
`createPaymentIntent` request is rejected. The rejection escapes at line 158, the run
requests nothing else, and the pending secret is `none` afterwards although no collection,
confirmation or capture took place. -/
theorem collectCardPayment_create_rejected_secret_none :
    (collectCardPayment (.error requestFailed) (.ok collectFailed) (.ok confirmDeclined)
      (.error requestFailed) connectedApp).app.pendingPaymentIntentSecret = none ∧
    (collectCardPayment (.error requestFailed) (.ok collectFailed) (.ok confirmDeclined)
      (.error requestFailed) connectedApp).requests
      = [Call.createPaymentIntent 5100 "usd" "Test Charge"] ∧
    (collectCardPayment (.error requestFailed) (.ok collectFailed) (.ok confirmDeclined)
      (.error requestFailed) connectedApp).result = .error requestFailed ∧
    (collectCardPayment (.error requestFailed) (.ok collectFailed) (.ok confirmDeclined)
      (.error requestFailed) connectedApp).app = connectedApp :=
  ⟨rfl, rfl, rfl, rfl⟩

/-- C2 amended: after a run of `collectCardPayment` the pending secret is `none` if and
only if either the collect request was made and settled without error, confirm settled
without error and with a payment intent, and capture returned, or the secret was `none`
before and the `createPaymentIntent` request was rejected (the run ends there and clears
nothing). After a capture the run has requested the capture of that intent by id and
returns the capture result, and the next run requests `createPaymentIntent` first, once,
and passes the secret it returns to `collectPaymentMethod`. -/
theorem collectCardPayment_secret_cleared_iff_captured (app : App)
    (createIntentResponse createIntentResponse2 : Except Rejection CreateIntentResponse)
    (result result2 : Except Rejection CollectResult)
    (confirmResult confirmResult2 : Except Rejection ConfirmResult)
    (captureResult captureResult2 : Except Rejection CaptureResult) :
    let run := collectCardPayment createIntentResponse result confirmResult captureResult app
    let next :=
      collectCardPayment createIntentResponse2 result2 confirmResult2 captureResult2 run.app
    (run.app.pendingPaymentIntentSecret = none ↔
      (run.requests.any Call.isCollectPaymentMethod = true ∧
        ∃ collected confirmed paymentIntent captureResponse,
          result = .ok collected ∧ collected.error = none ∧
          confirmResult = .ok confirmed ∧ confirmed.error = none ∧
          confirmed.paymentIntent = some paymentIntent ∧
          captureResult = .ok captureResponse) ∨
      (app.pendingPaymentIntentSecret = none ∧
        ∃ rejection, createIntentResponse = .error rejection)) ∧
    (∀ collected confirmed paymentIntent captureResponse,
      run.requests.any Call.isCollectPaymentMethod = true →
      result = .ok collected → collected.error = none →
      confirmResult = .ok confirmed → confirmed.error = none →
      confirmed.paymentIntent = some paymentIntent → captureResult = .ok captureResponse →
        run.result = .ok (some captureResponse) ∧
        Call.capturePaymentIntent paymentIntent.id ∈ run.requests ∧
        next.requests.head? = some (Call.createPaymentIntent 5100 "usd" "Test Charge") ∧
        (next.requests.filter Call.isCreatePaymentIntent).length = 1 ∧
        ∀ response, createIntentResponse2 = .ok response →
          next.requests.take 2
            = [Call.createPaymentIntent 5100 "usd" "Test Charge",
               Call.collectPaymentMethod (some response.secret)]) := by
  intro run next
  obtain ⟨state, secret⟩ := app
  constructor
  · rcases secret with _ | secret
    · rcases createIntentResponse with rejection | response <;>
        rcases result with rejection | ⟨_ | error, paymentIntent⟩ <;>
        rcases confirmResult with rejection | ⟨_ | confirmError, _ | confirmIntent⟩ <;>
        rcases captureResult with rejection | captureResponse <;>
        simp [run, collectCardPayment, Run.requests, Call.isCollectPaymentMethod, truthy]
    · by_cases hempty : secret.token = "" <;>
        rcases createIntentResponse with rejection | response <;>
        rcases result with rejection | ⟨_ | error, paymentIntent⟩ <;>
        rcases confirmResult with rejection | ⟨_ | confirmError, _ | confirmIntent⟩ <;>
        rcases captureResult with rejection | captureResponse <;>
        simp [run, collectCardPayment, Run.requests, Call.isCollectPaymentMethod, truthy, hempty]
  · intro collected confirmed intent captureResponse hcollect h1 h2 h3 h4 h5 h6
    obtain ⟨error, paymentIntent⟩ := collected
    obtain ⟨confirmError, confirmIntent⟩ := confirmed
    simp only at h2 h4 h5
    subst h1 h2 h3 h4 h5 h6
    have hrun : run.result = .ok (some captureResponse) ∧
        Call.capturePaymentIntent intent.id ∈ run.requests ∧
        truthy run.app.pendingPaymentIntentSecret = false := by
      cases htruthy : truthy secret <;>
        rcases createIntentResponse with rejection | response <;>
        simp_all [run, collectCardPayment, Run.requests, Call.isCollectPaymentMethod, truthy]
    have hnext := collectCardPayment_from_falsy run.app createIntentResponse2 result2
      confirmResult2 captureResult2 hrun.2.2
    exact ⟨hrun.1, hrun.2.1, hnext⟩

/-- Witness for the amended C2: a captured payment on the connected sample session clears
the secret and returns the capture answer, and the next run creates the second intent and
collects with its secret. -/
theorem collectCardPayment_secret_cleared_iff_captured_witness :
    (collectCardPayment (.ok firstIntent) (.ok collectOk) (.ok confirmOk) (.ok captured)
      connectedApp).app.pendingPaymentIntentSecret = none ∧
    (collectCardPayment (.ok firstIntent) (.ok collectOk) (.ok confirmOk) (.ok captured)
      connectedApp).result = .ok (some captured) ∧
    (collectCardPayment (.ok secondIntent) (.ok collectFailed) (.ok confirmDeclined)
        (.ok captured)
        (collectCardPayment (.ok firstIntent) (.ok collectOk) (.ok confirmOk) (.ok captured)
          connectedApp).app).requests.take 2
      = [Call.createPaymentIntent 5100 "usd" "Test Charge",
         Call.collectPaymentMethod (some secondSecret)] :=
  have h := collectCardPayment_secret_cleared_iff_captured connectedApp (.ok firstIntent)
    (.ok secondIntent) (.ok collectOk) (.ok collectFailed) (.ok confirmOk)
    (.ok confirmDeclined) (.ok captured) (.ok captured)
  have hrun := h.2 collectOk confirmOk { id := "pi_1" } captured rfl rfl rfl rfl rfl rfl rfl
  ⟨h.1.mpr (Or.inl ⟨rfl, collectOk, confirmOk, { id := "pi_1" }, captured,
      rfl, rfl, rfl, rfl, rfl, rfl⟩),
    hrun.1, hrun.2.2.2.2 secondIntent rfl⟩

/-- In every run of `collectCardPayment` that reaches the collect request and in which
collect settles without error there is one confirm request, and `cancelablePayment` is
still true when it goes out: line 178 resets the flag only after `confirmResult` has
arrived. -/
theorem collectCardPayment_confirm_snapshot (app : App)
    (createIntentResponse : CreateIntentResponse) (paymentIntent : Option PaymentIntent)
    (confirmResult : Except Rejection ConfirmResult)
    (captureResult : Except Rejection CaptureResult) :
    ((collectCardPayment (.ok createIntentResponse)
        (.ok { error := none, paymentIntent := paymentIntent })
        confirmResult captureResult app).calls.filter
          (fun call => call.1.isConfirmPaymentIntent)).map
      (fun call => (call.1, call.2.state.cancelablePayment))
      = [(Call.confirmPaymentIntent paymentIntent, true)] := by
  obtain ⟨state, secret⟩ := app
  cases htruthy : truthy secret <;>
    rcases confirmResult with rejection | ⟨_ | confirmError, _ | confirmIntent⟩ <;>
    rcases captureResult with rejection | captureResponse <;>
    simp [collectCardPayment, Call.isConfirmPaymentIntent, htruthy]

/-- C3 (the code departs from the claim): on the connected sample session, with the
collection succeeding, the confirm request goes out while `cancelablePayment` is true;
the claim wants it false at that moment. -/
theorem collectCardPayment_confirm_requested_while_cancelable :
    ((collectCardPayment (.ok firstIntent) (.ok collectOk) (.ok confirmOk) (.ok captured)
        connectedApp).calls.filter
        (fun call => call.1.isConfirmPaymentIntent)).map
      (fun call => (call.1, call.2.state.cancelablePayment))
      = [(Call.confirmPaymentIntent (some { id := "pi_1" }), true)] :=
  collectCardPayment_confirm_snapshot connectedApp firstIntent (some { id := "pi_1" })
    (.ok confirmOk) (.ok captured)

/-- In every run of `collectCardPayment` that reaches the collect request and in which
collect settles with an error the method returns normally with `cancelablePayment` true:
the only reset, line 178, sits in the `else` branch. -/
theorem collectCardPayment_collect_error_final (app : App)
    (createIntentResponse : CreateIntentResponse) (error : SdkError)
    (paymentIntent : Option PaymentIntent) (confirmResult : Except Rejection ConfirmResult)
    (captureResult : Except Rejection CaptureResult) :
    (collectCardPayment (.ok createIntentResponse)
      (.ok { error := some error, paymentIntent := paymentIntent })
      confirmResult captureResult app).result = .ok none ∧
    (collectCardPayment (.ok createIntentResponse)
      (.ok { error := some error, paymentIntent := paymentIntent })
      confirmResult captureResult app).app.state.cancelablePayment = true := by
  obtain ⟨state, secret⟩ := app
  cases htruthy : truthy secret <;> simp [collectCardPayment, htruthy]

/-- C4 (the code departs from the claim): on the connected sample session a collection
that settles with an error ends the run normally with the pending secret kept and
`cancelablePayment` true; the claim wants it false. -/
theorem collectCardPayment_collect_error_leaves_cancelable :
    (collectCardPayment (.ok firstIntent) (.ok collectFailed) (.ok confirmOk) (.ok captured)
      connectedApp).result = .ok none ∧
    (collectCardPayment (.ok firstIntent) (.ok collectFailed) (.ok confirmOk) (.ok captured)
      connectedApp).app.state.cancelablePayment = true ∧
    (collectCardPayment (.ok firstIntent) (.ok collectFailed) (.ok confirmOk) (.ok captured)
      connectedApp).app.pendingPaymentIntentSecret = some firstSecret :=
  ⟨rfl, rfl, rfl⟩

/-- On every path of `collectCardPayment` on which confirm is answered, the run ends with
`cancelablePayment` false. -/
theorem collectCardPayment_confirm_answered_final (app : App)
    (createIntentResponse : CreateIntentResponse) (paymentIntent : Option PaymentIntent)
    (confirmResult : ConfirmResult) (captureResult : Except Rejection CaptureResult) :
    (collectCardPayment (.ok createIntentResponse)
      (.ok { error := none, paymentIntent := paymentIntent })
      (.ok confirmResult) captureResult app).app.state.cancelablePayment = false := by
  obtain ⟨confirmError, confirmIntent⟩ := confirmResult
  obtain ⟨state, secret⟩ := app
  cases htruthy : truthy secret <;> cases confirmError <;> cases confirmIntent <;>
    cases captureResult <;> simp [collectCardPayment, htruthy]

/-- The method `collectCardPayment` writes `cancelablePayment` and the pending secret only:
`status` and `reader` come out as they went in, on every path. -/
theorem collectCardPayment_frame (app : App)
    (createIntentResponse : Except Rejection CreateIntentResponse)
    (result : Except Rejection CollectResult) (confirmResult : Except Rejection ConfirmResult)
    (captureResult : Except Rejection CaptureResult) :
    (collectCardPayment createIntentResponse result confirmResult captureResult app).app.state.status
      = app.state.status ∧
    (collectCardPayment createIntentResponse result confirmResult captureResult app).app.state.reader
      = app.state.reader := by
  obtain ⟨state, secret⟩ := app
  cases htruthy : truthy secret <;>
    rcases createIntentResponse with rejection | response <;>
    rcases result with rejection | ⟨_ | error, paymentIntent⟩ <;>
    rcases confirmResult with rejection | ⟨_ | confirmError, _ | confirmIntent⟩ <;>
    rcases captureResult with rejection | captureResponse <;>
    simp [collectCardPayment, htruthy]

/-! ## Sequences of operations: theorems -/

/-- An operation writes `status` exactly when it is a connect answered with a
connection, and then writes `"workflows"`. -/
theorem Op.apply_status (op : Op) (app : App) :
    (op.apply app).state.status = if op.connects = true then "workflows" else app.state.status := by
  cases op with
  | onSetBackendURL url => rfl
  | discoverReaders useSimulator discoverResult => cases discoverResult <;> rfl
  | connectToReader selectedReader connectResult => cases connectResult <;> rfl
  | disconnectReader => rfl
  | registerAndConnectNewReader label code reader connectResult =>
    cases reader <;> cases connectResult <;> rfl
  | updateLineItems => rfl
  | collectCardPayment createIntentResponse result confirmResult captureResult =>
    exact (collectCardPayment_frame app createIntentResponse result confirmResult
      captureResult).1
  | cancelPendingPayment cancelResult => cases cancelResult <;> rfl
  | saveCardForFutureUse readSourceResult customer => cases readSourceResult <;> rfl
  | onUnexpectedReaderDisconnect => rfl
  | onConnectionStatusChange ev => rfl

/-- Along a sequence of operations `status` becomes `"workflows"` at the first connect
answered with a connection and is not written otherwise. -/
theorem runOps_status (ops : List Op) (app : App) :
    (runOps ops app).state.status
      = if ops.any Op.connects = true then "workflows" else app.state.status := by
  induction ops generalizing app with
  | nil => rfl
  | cons op rest ih =>
    have hstep : runOps (op :: rest) app = runOps rest (op.apply app) := rfl
    rw [hstep, ih (op.apply app), Op.apply_status op app]
    cases hop : op.connects <;> cases hrest : rest.any Op.connects <;> simp [hop, hrest]

/-- Every operation keeps the converse property: a set `reader` comes with
`status = "workflows"`. -/
theorem Op.apply_keeps_workflows (op : Op) (app : App)
    (h : app.state.reader ≠ none → app.state.status = "workflows") :
    (op.apply app).state.reader ≠ none → (op.apply app).state.status = "workflows" := by
  cases op with
  | onSetBackendURL url => exact h
  | discoverReaders useSimulator discoverResult => cases discoverResult <;> exact h
  | connectToReader selectedReader connectResult =>
    cases connectResult with
    | error error => exact h
    | connection connection => intro _; rfl
  | disconnectReader => intro hreader; exact absurd rfl hreader
  | registerAndConnectNewReader label code reader connectResult =>
    cases reader with
    | error rejection => exact h
    | ok reader =>
      cases connectResult with
      | error error => exact h
      | connection connection => intro _; rfl
  | updateLineItems => exact h
  | collectCardPayment createIntentResponse result confirmResult captureResult =>
    have hframe := collectCardPayment_frame app createIntentResponse result confirmResult
      captureResult
    intro hreader
    simp only [Op.apply] at hreader ⊢
    rw [hframe.1]
    rw [hframe.2] at hreader
    exact h hreader
  | cancelPendingPayment cancelResult => cases cancelResult <;> exact h
  | saveCardForFutureUse readSourceResult customer => cases readSourceResult <;> exact h
  | onUnexpectedReaderDisconnect => intro hreader; exact absurd rfl hreader
  | onConnectionStatusChange ev => intro hreader; exact absurd rfl hreader

/-- In every component reached from the initial one, by any operations at all, a set
`reader` comes with `status = "workflows"`. -/
theorem runOps_reader_implies_workflows (ops : List Op) :
    (runOps ops App.initial).state.reader ≠ none →
      (runOps ops App.initial).state.status = "workflows" := by
  have key : ∀ (ops : List Op) (app : App),
      (app.state.reader ≠ none → app.state.status = "workflows") →
      (runOps ops app).state.reader ≠ none → (runOps ops app).state.status = "workflows" := by
    intro ops
    induction ops with
    | nil => intro app h; exact h
    | cons op rest ih => intro app h; exact ih (op.apply app) (Op.apply_keeps_workflows op app h)
  exact key ops App.initial (fun hreader => absurd rfl hreader)

/-- C6 as stated fails: after `onSetBackendURL`, a successful `connectToReader` and
`disconnectReader`, the component has `reader = none` and `status = "workflows"`. -/
theorem reader_none_with_status_workflows :
    (runOps
        [Op.onSetBackendURL "http://localhost:4567",
         Op.connectToReader sampleReader (.connection { reader := sampleReader }),
         Op.disconnectReader]
        App.initial).state.reader = none ∧
    (runOps
        [Op.onSetBackendURL "http://localhost:4567",
         Op.connectToReader sampleReader (.connection { reader := sampleReader }),
         Op.disconnectReader]
        App.initial).state.status = "workflows" :=
  ⟨rfl, rfl⟩

/-- C6 amended: in every component reached from the initial one by any sequence of
operations and notifications, `status` is `"workflows"` if and only if some connect of
the sequence was answered with a connection, and is still `"requires_initializing"`
otherwise, whatever disconnects and notifications the sequence holds. Hence
"`reader = none` implies `status` is not `"workflows"`" holds in exactly those reached
components where `reader` is set or no connect has succeeded so far. -/
theorem reader_none_implies_not_workflows (ops : List Op) :
    ((runOps ops App.initial).state.status = "workflows" ↔ ops.any Op.connects = true) ∧
    (ops.any Op.connects = false →
      (runOps ops App.initial).state.status = "requires_initializing") ∧
    (((runOps ops App.initial).state.reader = none →
        (runOps ops App.initial).state.status ≠ "workflows") ↔
      ((runOps ops App.initial).state.reader ≠ none ∨ ops.any Op.connects = false)) := by
  have hstatus := runOps_status ops App.initial
  have hinitial : App.initial.state.status = "requires_initializing" := rfl
  cases hany : ops.any Op.connects
  · have hfinal : (runOps ops App.initial).state.status = "requires_initializing" := by
      rw [hstatus, hany, hinitial]; rfl
    refine ⟨?_, fun _ => hfinal, ?_⟩
    · rw [hfinal]; decide
    · rw [hfinal]
      constructor
      · intro _; exact Or.inr rfl
      · intro _ _; decide
  · have hfinal : (runOps ops App.initial).state.status = "workflows" := by
      rw [hstatus, hany]; rfl
    refine ⟨?_, fun h => absurd h (by decide), ?_⟩
    · rw [hfinal]; simp
    · constructor
      · intro h
        by_cases hreader : (runOps ops App.initial).state.reader = none
        · exact absurd hfinal (h hreader)
        · exact Or.inl hreader
      · intro h hreader
        rcases h with h | h
        · exact absurd hreader h
        · exact absurd h (by decide)

/-- Witness for the amended C6: no connect succeeds, yet the sequence holds a
`disconnectReader` and a status-change notification; the reader is absent and `status` is
not `"workflows"`. -/
theorem reader_none_implies_not_workflows_witness :
    (runOps
        [Op.onSetBackendURL "http://localhost:4567",
         Op.connectToReader sampleReader (.error { message := "Could not connect" }),
         Op.disconnectReader,
         Op.onConnectionStatusChange { status := "connecting" }]
        App.initial).state.reader = none ∧
    (runOps
        [Op.onSetBackendURL "http://localhost:4567",
         Op.connectToReader sampleReader (.error { message := "Could not connect" }),
         Op.disconnectReader,
         Op.onConnectionStatusChange { status := "connecting" }]
        App.initial).state.connectionStatus = "connecting" ∧
    (runOps
        [Op.onSetBackendURL "http://localhost:4567",
         Op.connectToReader sampleReader (.error { message := "Could not connect" }),
         Op.disconnectReader,
         Op.onConnectionStatusChange { status := "connecting" }]
        App.initial).state.status ≠ "workflows" :=
  ⟨rfl, rfl,
    (reader_none_implies_not_workflows
      [Op.onSetBackendURL "http://localhost:4567",
       Op.connectToReader sampleReader (.error { message := "Could not connect" }),
       Op.disconnectReader,
       Op.onConnectionStatusChange { status := "connecting" }]).2.2.mpr (Or.inr rfl) rfl⟩

end MainPage
